import Mathlib

/-!
Verification of the PNCC queue-watcher script (`queue_scraper.py`).

The script scrapes a published spreadsheet into a table, extracts a current
snapshot per project (`find_current_samples`), loads the previously stored
snapshot from a per-project JSON file (`get_old_samples`), diffs the two
(`detect_changes`), persists the current snapshot (`write_samples`) and
returns the delta.

Shallow embedding conventions:
* Python `datetime` values are modelled by `DateTime` (year, month, day,
  time-of-day); comparison is field-lexicographic exactly as in CPython.
* Python strings are modelled as `List Char`; `strftime`/`strptime` for the
  `%m/%d/%Y` format are implemented faithfully (zero-padded output; parsing
  accepts 1-2 digit month/day and exactly 4 digit year, validating ranges
  and day-of-month like `datetime.strptime` does).
* The per-project JSON files are modelled as a `Store : Int → Option
  StoredSnapshot`; `json.dump`/`json.load` of the flat
  `{"ready": int, "scheduled": [str]}` dict are faithful and are elided.
* Exceptions are modelled with `Except PyError`; `datetime.now()` is passed
  in as an explicit parameter (one per call site, since the script calls it
  twice).
-/

namespace QueueScraper

/-- Model of a Python `datetime`: calendar fields plus a time-of-day
component (`tod`), which is zero for values produced by
`strptime('%m/%d/%Y')` and generally nonzero for `datetime.now()`. -/
structure DateTime where
  year : Nat
  month : Nat
  day : Nat
  tod : Nat
deriving DecidableEq, Repr

/-- Python `datetime` comparison `a < b`: lexicographic on
(year, month, day, time-of-day). -/
def DateTime.ltb (a b : DateTime) : Bool :=
  if a.year ≠ b.year then a.year < b.year
  else if a.month ≠ b.month then a.month < b.month
  else if a.day ≠ b.day then a.day < b.day
  else a.tod < b.tod

/-- Gregorian leap-year test, as in Python's `calendar`/`datetime`. -/
def isLeap (y : Nat) : Bool :=
  (y % 4 == 0 && y % 100 != 0) || y % 400 == 0

/-- Days in a month, as validated by the `datetime` constructor. -/
def daysInMonth (y m : Nat) : Nat :=
  if m = 2 then (if isLeap y then 29 else 28)
  else if m = 4 ∨ m = 6 ∨ m = 9 ∨ m = 11 then 30
  else 31

/-- A `DateTime` that an actual Python `datetime` object parsed by
`strptime('%m/%d/%Y')` can hold: valid calendar fields and midnight
time-of-day. -/
def ValidDate (d : DateTime) : Prop :=
  1 ≤ d.month ∧ d.month ≤ 12 ∧ 1 ≤ d.day ∧ d.day ≤ daysInMonth d.year d.month ∧
    1 ≤ d.year ∧ d.year ≤ 9999 ∧ d.tod = 0

instance (d : DateTime) : Decidable (ValidDate d) := by
  unfold ValidDate; infer_instance

/-- Two-digit zero-padded decimal rendering (`%m`, `%d` of `strftime`). -/
def pad2 (n : Nat) : List Char :=
  [Nat.digitChar (n / 10 % 10), Nat.digitChar (n % 10)]

/-- Four-digit zero-padded decimal rendering (`%Y` of `strftime`). -/
def pad4 (n : Nat) : List Char :=
  [Nat.digitChar (n / 1000 % 10), Nat.digitChar (n / 100 % 10),
   Nat.digitChar (n / 10 % 10), Nat.digitChar (n % 10)]

/-- `x.strftime('%m/%d/%Y')`: zero-padded month/day/year. -/
def strftime (d : DateTime) : List Char :=
  pad2 d.month ++ '/' :: pad2 d.day ++ '/' :: pad4 d.year

/-- Decimal value of a digit string, as Python's `int()` on a digit run. -/
def digitsVal (l : List Char) : Nat :=
  l.foldl (fun a c => a * 10 + (c.toNat - 48)) 0

/-- `datetime.strptime(s, '%m/%d/%Y')`: month and day are 1-2 digit runs,
year exactly 4 digits, separated by literal slashes with nothing left over;
month 1-12, year ≥ 1, and day within the month's length, otherwise a
`ValueError` (modelled as `none`).  The result has midnight time-of-day. -/
def strptime (s : List Char) : Option DateTime :=
  let ms := s.takeWhile Char.isDigit
  match s.dropWhile Char.isDigit with
  | [] => none
  | c1 :: r1 =>
    let ds := r1.takeWhile Char.isDigit
    match r1.dropWhile Char.isDigit with
    | [] => none
    | c2 :: ys =>
      if c1 = '/' ∧ c2 = '/' ∧ 1 ≤ ms.length ∧ ms.length ≤ 2 ∧
          1 ≤ ds.length ∧ ds.length ≤ 2 ∧ ys.length = 4 ∧ ys.all Char.isDigit then
        let m := digitsVal ms
        let d := digitsVal ds
        let y := digitsVal ys
        if 1 ≤ m ∧ m ≤ 12 ∧ 1 ≤ d ∧ d ≤ daysInMonth y m ∧ 1 ≤ y then
          some ⟨y, m, d, 0⟩
        else none
      else none

/-- The Python exceptions the modelled code paths can raise. -/
inductive PyError where
  /-- `UnboundLocalError`/`NameError`: a local variable used before
  assignment. -/
  | nameError : PyError
  /-- `ValueError` from `datetime.strptime` on a malformed date string. -/
  | valueError : PyError
deriving DecidableEq, Repr

/-- One row of the fetched queue table, restricted to the five columns
`get_table` selects.  Missing cells (pandas `NaN`) are `none`. -/
structure Row where
  projectID : Int
  currentStatus : List Char
  technique : List Char
  sampleOnsite : Option (List Char)
  imagingDate : Option (List Char)
deriving DecidableEq, Repr

/-- The table `get_table` hands to the rest of the script. -/
abbrev Table := List Row

/-- The literal string `'Yes'` compared against the `Sample Onsite?`
column. -/
def yesStr : List Char := ['Y', 'e', 's']

/-- `get_table(url)`.  The network fetch is abstracted as its outcome:
`some df` when `pd.read_html` succeeds, `none` when it raises `HTTPError`.
On `HTTPError` the `except` clause only logs; the function then executes
`logging.debug(df)` with `df` never assigned, which raises
`UnboundLocalError` out of `get_table` itself. -/
def get_table (fetched : Option Table) : Except PyError Table :=
  match fetched with
  | some df => Except.ok df
  | none => Except.error PyError.nameError

/-- In-memory snapshot: `{'ready': int, 'scheduled': [datetime]}`.
`ready` is an `Int` because the stored JSON may hold any integer. -/
structure Snapshot where
  ready : Int
  scheduled : List DateTime
deriving DecidableEq, Repr

/-- On-disk snapshot: `{"ready": int, "scheduled": ["MM/DD/YYYY", ...]}`. -/
structure StoredSnapshot where
  ready : Int
  scheduled : List (List Char)
deriving DecidableEq, Repr

/-- The collection of per-project files `<project>_samples.json`:
`none` means the file does not exist. -/
abbrev Store := Int → Option StoredSnapshot

/-- `[datetime.strptime(x, '%m/%d/%Y') for x in l]`: the first malformed
string raises `ValueError` out of the comprehension. -/
def parseAll : List (List Char) → Except PyError (List DateTime)
  | [] => Except.ok []
  | s :: rest =>
    match strptime s with
    | none => Except.error PyError.valueError
    | some d =>
      match parseAll rest with
      | Except.error e => Except.error e
      | Except.ok ds => Except.ok (d :: ds)

/-- `find_current_samples(table, project)`: rows matching the project ID;
if none, the default snapshot; otherwise `ready` counts rows whose
`Sample Onsite?` is literally `'Yes'`, and `scheduled` parses every
non-null `Imaging Date` and keeps only dates strictly after `now`. -/
def find_current_samples (table : Table) (project : Int) (now : DateTime) :
    Except PyError Snapshot :=
  let df := table.filter (fun r => r.projectID == project)
  if df.isEmpty then Except.ok ⟨0, []⟩
  else
    let samples_ready := (df.filter (fun r => r.sampleOnsite == some yesStr)).map Row.projectID
    let samples_scheduled := (df.filter (fun r => r.imagingDate.isSome)).map
      (fun r => r.imagingDate.getD [])
    match parseAll samples_scheduled with
    | Except.error e => Except.error e
    | Except.ok parsed =>
      Except.ok ⟨(samples_ready.length : Int), parsed.filter (fun x => DateTime.ltb now x)⟩

/-- `get_old_samples(project)`: a missing file (`FileNotFoundError`) yields
the default snapshot; otherwise the stored date strings are parsed (a
malformed one raises `ValueError`, not caught) and filtered to dates
strictly after `now`. -/
def get_old_samples (store : Store) (project : Int) (now : DateTime) :
    Except PyError Snapshot :=
  match store project with
  | none => Except.ok ⟨0, []⟩
  | some data =>
    match parseAll data.scheduled with
    | Except.error e => Except.error e
    | Except.ok ds => Except.ok ⟨data.ready, ds.filter (fun x => DateTime.ltb now x)⟩

/-- `write_samples(project, samples)`: overwrite that project's file. -/
def write_samples (store : Store) (project : Int) (samples : StoredSnapshot) : Store :=
  fun q => if q = project then some samples else store q

/-- The pair `(new_ready, new_scheduled)` returned by `detect_changes`:
Python `False` is `none`. -/
structure Delta where
  new_ready : Option Int
  new_scheduled : Option (List DateTime)
deriving DecidableEq, Repr

/-- `detect_changes(df, project)`: compute the current snapshot, load the
old one, report a ready-count increase and (under the length gate) the
dates present now but not before, then always persist the current snapshot
with its dates formatted back to strings.  `nowCur` and `nowOld` are the
two successive `datetime.now()` reads (lines 40 and 53 of the script). -/
def detect_changes (df : Table) (project : Int) (store : Store)
    (nowCur nowOld : DateTime) : Except PyError (Delta × Store) :=
  match find_current_samples df project nowCur with
  | Except.error e => Except.error e
  | Except.ok current =>
    match get_old_samples store project nowOld with
    | Except.error e => Except.error e
    | Except.ok old =>
      let new_ready : Option Int :=
        if current.ready > old.ready then some (current.ready - old.ready) else none
      let new_scheduled : Option (List DateTime) :=
        if current.scheduled.length > old.scheduled.length then
          some (current.scheduled.filter (fun x => decide (x ∉ old.scheduled)))
        else none
      let stored : StoredSnapshot := ⟨current.ready, current.scheduled.map strftime⟩
      Except.ok (⟨new_ready, new_scheduled⟩, write_samples store project stored)

/-- `logging.WARNING`. -/
def WARNING : Nat := 30
/-- `logging.INFO`. -/
def INFO : Nat := 20
/-- `logging.DEBUG`. -/
def DEBUG : Nat := 10

/-- `levels = [logging.WARNING, logging.INFO, logging.DEBUG]`. -/
def levels : List Nat := [WARNING, INFO, DEBUG]

/-- `levels[min(len(levels) - 1, args.verbose)]`. -/
def levelIndex (verbose : Nat) : Nat := min (levels.length - 1) verbose

/-- Specification-side filtering policy, for comparison with the code: the
spec asks that "filtering should keep dates >= now at the moment of
comparison". -/
def spec_keep_dates_ge_now (now : DateTime) (l : List DateTime) : List DateTime :=
  l.filter (fun x => !(DateTime.ltb x now))

/-- The Delta data-model invariant as the spec states it: `new_ready` is
`False` or a positive integer and `new_scheduled` is `False` or a
*non-empty* list of dates. -/
def DeltaInvariant (δ : Delta) : Prop :=
  (δ.new_ready = none ∨ ∃ k, δ.new_ready = some k ∧ 0 < k) ∧
  (δ.new_scheduled = none ∨ ∃ l, δ.new_scheduled = some l ∧ l ≠ [])

/-! ### Concrete fixtures used by witnesses and counterexamples -/

/-- January 1, 2030 (a future imaging date). -/
def dJan : DateTime := ⟨2030, 1, 1, 0⟩
/-- February 1, 2030. -/
def dFeb : DateTime := ⟨2030, 2, 1, 0⟩
/-- March 1, 2030. -/
def dMar : DateTime := ⟨2030, 3, 1, 0⟩
/-- The string `"01/01/2030"`. -/
def sJan : List Char := strftime dJan
/-- The string `"02/01/2030"`. -/
def sFeb : List Char := strftime dFeb
/-- The string `"03/01/2030"`. -/
def sMar : List Char := strftime dMar
/-- A `datetime.now()` value: noon-ish on June 15, 2025. -/
def now0 : DateTime := ⟨2025, 6, 15, 43200⟩
/-- A `datetime.now()` value that is exactly midnight of January 1, 2030,
i.e. equal to the parsed date `dJan`. -/
def nowEq : DateTime := ⟨2030, 1, 1, 0⟩
/-- An empty store: no `<project>_samples.json` file exists. -/
def storeNone : Store := fun _ => none

/-- A table with three rows for project 1, all onsite, two with imaging
dates. -/
def df1 : Table :=
  [⟨1, [], [], some yesStr, some sJan⟩,
   ⟨1, [], [], some yesStr, some sFeb⟩,
   ⟨1, [], [], some yesStr, none⟩]
/-- A store where project 1 last saw 2 ready samples and one scheduled
date. -/
def store1 : Store := fun q => if q = 1 then some ⟨2, [sJan]⟩ else none

/-- A table whose only project-1 row has one imaging date (`sMar`). -/
def df2 : Table := [⟨1, [], [], none, some sMar⟩]
/-- A store where project 1 has one stored date (`sJan`): same length as
`df2`'s current list, one date swapped. -/
def store2 : Store := fun q => if q = 1 then some ⟨0, [sJan]⟩ else none

/-- A table with two project-1 rows carrying the *same* imaging date. -/
def df3 : Table :=
  [⟨1, [], [], none, some sJan⟩, ⟨1, [], [], none, some sJan⟩]
/-- A store where project 1 already has that date stored once and a high
ready count. -/
def store3 : Store := fun q => if q = 1 then some ⟨5, [sJan]⟩ else none

/-- A table whose only project-1 row is scheduled exactly at `nowEq`. -/
def df5 : Table := [⟨1, [], [], none, some sJan⟩]
/-- A store where project 1 has the date `sFeb` stored. -/
def store5 : Store := fun q => if q = 1 then some ⟨0, [sFeb]⟩ else none

/-! ### Helper lemmas: digits, padding, and the strftime/strptime round trip -/

/-- A decimal digit character is recognised by `Char.isDigit`. -/
theorem isDigit_digitChar {n : Nat} (h : n < 10) : (Nat.digitChar n).isDigit = true := by
  interval_cases n <;> decide

/-- Decoding a decimal digit character recovers the digit. -/
theorem toNat_digitChar {n : Nat} (h : n < 10) : (Nat.digitChar n).toNat - 48 = n := by
  interval_cases n <;> decide

/-- `takeWhile` stops exactly at the first failing element. -/
theorem takeWhile_append_cons (p : Char → Bool) (l₁ : List Char) (x : Char)
    (l₂ : List Char) (h₁ : ∀ c ∈ l₁, p c = true) (hx : p x = false) :
    (l₁ ++ x :: l₂).takeWhile p = l₁ := by
  induction l₁ with
  | nil => simp [List.takeWhile, hx]
  | cons a as ih =>
    have ha : p a = true := h₁ a (List.mem_cons_self a as)
    simp only [List.cons_append, List.takeWhile, ha, List.append_eq]
    rw [ih (fun c hc => h₁ c (List.mem_cons_of_mem a hc))]

/-- `dropWhile` drops exactly up to the first failing element. -/
theorem dropWhile_append_cons (p : Char → Bool) (l₁ : List Char) (x : Char)
    (l₂ : List Char) (h₁ : ∀ c ∈ l₁, p c = true) (hx : p x = false) :
    (l₁ ++ x :: l₂).dropWhile p = x :: l₂ := by
  induction l₁ with
  | nil => simp [List.dropWhile, hx]
  | cons a as ih =>
    have ha : p a = true := h₁ a (List.mem_cons_self a as)
    simp only [List.cons_append, List.dropWhile, ha]
    exact ih (fun c hc => h₁ c (List.mem_cons_of_mem a hc))

/-- Both characters of a two-digit rendering are digits. -/
theorem pad2_digits (n : Nat) : ∀ c ∈ pad2 n, c.isDigit = true := by
  intro c hc
  simp only [pad2, List.mem_cons, List.not_mem_nil, or_false] at hc
  rcases hc with h | h <;> subst h <;>
    exact isDigit_digitChar (Nat.mod_lt _ (by omega))

/-- All four characters of a four-digit rendering are digits. -/
theorem pad4_digits (n : Nat) : ∀ c ∈ pad4 n, c.isDigit = true := by
  intro c hc
  simp only [pad4, List.mem_cons, List.not_mem_nil, or_false] at hc
  rcases hc with h | h | h | h <;> subst h <;>
    exact isDigit_digitChar (Nat.mod_lt _ (by omega))

/-- Decoding a two-digit rendering recovers the number (below 100). -/
theorem digitsVal_pad2 {n : Nat} (h : n < 100) : digitsVal (pad2 n) = n := by
  have h1 : n / 10 % 10 < 10 := Nat.mod_lt _ (by omega)
  have h2 : n % 10 < 10 := Nat.mod_lt _ (by omega)
  simp only [digitsVal, pad2, List.foldl, toNat_digitChar h1, toNat_digitChar h2]
  omega

/-- Decoding a four-digit rendering recovers the number (below 10000). -/
theorem digitsVal_pad4 {n : Nat} (h : n < 10000) : digitsVal (pad4 n) = n := by
  have h1 : n / 1000 % 10 < 10 := Nat.mod_lt _ (by omega)
  have h2 : n / 100 % 10 < 10 := Nat.mod_lt _ (by omega)
  have h3 : n / 10 % 10 < 10 := Nat.mod_lt _ (by omega)
  have h4 : n % 10 < 10 := Nat.mod_lt _ (by omega)
  simp only [digitsVal, pad4, List.foldl, toNat_digitChar h1, toNat_digitChar h2,
    toNat_digitChar h3, toNat_digitChar h4]
  omega

/-- Every month has at most 31 days. -/
theorem daysInMonth_le (y m : Nat) : daysInMonth y m ≤ 31 := by
  unfold daysInMonth
  split
  · split <;> omega
  · split <;> omega

/-- Parsing a formatted valid date recovers the date: the core of the
persistence round trip. -/
theorem strptime_strftime {d : DateTime} (h : ValidDate d) : strptime (strftime d) = some d := by
  obtain ⟨y, m, dd, t⟩ := d
  obtain ⟨hm1, hm2, hd1, hd2, hy1, hy2, ht⟩ := h
  subst ht
  replace hm1 : 1 ≤ m := hm1
  replace hm2 : m ≤ 12 := hm2
  replace hd1 : 1 ≤ dd := hd1
  replace hd2 : dd ≤ daysInMonth y m := hd2
  replace hy1 : 1 ≤ y := hy1
  replace hy2 : y ≤ 9999 := hy2
  have hm100 : m < 100 := by omega
  have hd100 : dd < 100 := by
    have := daysInMonth_le y m
    omega
  have hy10000 : y < 10000 := by omega
  have hslash : Char.isDigit '/' = false := by decide
  have hsf : strftime ⟨y, m, dd, 0⟩ = pad2 m ++ '/' :: (pad2 dd ++ '/' :: pad4 y) := rfl
  rw [hsf]
  show strptime (pad2 m ++ '/' :: (pad2 dd ++ '/' :: pad4 y)) = some ⟨y, m, dd, 0⟩
  unfold strptime
  rw [takeWhile_append_cons Char.isDigit (pad2 m) '/' _ (pad2_digits m) hslash,
    dropWhile_append_cons Char.isDigit (pad2 m) '/' _ (pad2_digits m) hslash]
  simp only
  rw [takeWhile_append_cons Char.isDigit (pad2 dd) '/' (pad4 y) (pad2_digits dd) hslash,
    dropWhile_append_cons Char.isDigit (pad2 dd) '/' (pad4 y) (pad2_digits dd) hslash]
  simp only
  rw [digitsVal_pad2 hm100, digitsVal_pad2 hd100, digitsVal_pad4 hy10000]
  rw [if_pos ⟨trivial, trivial, by norm_num [pad2], by norm_num [pad2], by norm_num [pad2],
    by norm_num [pad2], by norm_num [pad4], by rw [List.all_eq_true]; exact pad4_digits y⟩]
  rw [if_pos ⟨hm1, hm2, hd1, hd2, hy1⟩]

/-- Parsing a list of formatted valid dates recovers the list. -/
theorem parseAll_map_strftime {ds : List DateTime} (h : ∀ d ∈ ds, ValidDate d) :
    parseAll (ds.map strftime) = Except.ok ds := by
  induction ds with
  | nil => rfl
  | cons d rest ih =>
    simp only [List.map, parseAll, strptime_strftime (h d (List.mem_cons_self d rest))]
    rw [ih (fun x hx => h x (List.mem_cons_of_mem d hx))]

/-- Evaluation of `detect_changes` once the current and old snapshots are
known: the delta fields and the persisted store. -/
theorem detect_changes_eq (df : Table) (p : Int) (store : Store)
    (nowC nowOld : DateTime) (cur old : Snapshot)
    (hcur : find_current_samples df p nowC = Except.ok cur)
    (hold : get_old_samples store p nowOld = Except.ok old) :
    detect_changes df p store nowC nowOld = Except.ok
      (⟨if cur.ready > old.ready then some (cur.ready - old.ready) else none,
        if cur.scheduled.length > old.scheduled.length then
          some (cur.scheduled.filter (fun x => decide (x ∉ old.scheduled)))
        else none⟩,
       write_samples store p ⟨cur.ready, cur.scheduled.map strftime⟩) := by
  unfold detect_changes
  rw [hcur, hold]

/-- A list without duplicates that is contained in another list is no
longer than it (pigeonhole for the length-gate argument). -/
theorem nodup_subset_length_le {l₁ l₂ : List DateTime} (h : l₁.Nodup) (hs : l₁ ⊆ l₂) :
    l₁.length ≤ l₂.length := by
  have h1 : l₁.toFinset.card = l₁.length := List.toFinset_card_of_nodup h
  have h2 : l₁.toFinset ⊆ l₂.toFinset := by
    intro x hx
    simp only [List.mem_toFinset] at hx ⊢
    exact hs hx
  have h3 := Finset.card_le_card h2
  have h4 : l₂.toFinset.card ≤ l₂.length := l₂.toFinset_card_le
  omega

/-! ### Claim theorems -/

/-- C1: `detect_changes` reports `new_ready` if and only if the current
ready count strictly exceeds the stored one, and then it equals exactly
`current.ready - old.ready`; otherwise it is the false sentinel, so
decreases are silently ignored. -/
theorem detect_changes_new_ready_iff (df : Table) (p : Int) (store : Store)
    (nowC nowOld : DateTime) (cur old : Snapshot) (out : Delta × Store)
    (hcur : find_current_samples df p nowC = Except.ok cur)
    (hold : get_old_samples store p nowOld = Except.ok old)
    (hout : detect_changes df p store nowC nowOld = Except.ok out) :
    out.1.new_ready =
      if cur.ready > old.ready then some (cur.ready - old.ready) else none := by
  rw [detect_changes_eq df p store nowC nowOld cur old hcur hold] at hout
  injection hout with h
  rw [← h]

/-- Witness for C1 on the spec's own scenario: old `{ready: 2}`, current
`{ready: 3}` gives `new_ready = 1`. -/
theorem detect_changes_new_ready_iff_witness :
    (Delta.mk (some 1) (some [dFeb])).new_ready =
      if (Snapshot.mk 3 [dJan, dFeb]).ready > (Snapshot.mk 2 [dJan]).ready then
        some ((Snapshot.mk 3 [dJan, dFeb]).ready - (Snapshot.mk 2 [dJan]).ready)
      else none :=
  detect_changes_new_ready_iff df1 1 store1 now0 now0 ⟨3, [dJan, dFeb]⟩ ⟨2, [dJan]⟩
    (⟨some 1, some [dFeb]⟩, write_samples store1 1 ⟨3, [sJan, sFeb]⟩) rfl rfl rfl

/-- C2: `new_scheduled` is computed only when the current scheduled list
is strictly longer than the stored one, and then it is exactly the dates
of the current list not present in the stored one; otherwise (including
the equal-length one-date-swapped scenario) it is the false sentinel. -/
theorem detect_changes_new_scheduled_gate (df : Table) (p : Int) (store : Store)
    (nowC nowOld : DateTime) (cur old : Snapshot) (out : Delta × Store)
    (hcur : find_current_samples df p nowC = Except.ok cur)
    (hold : get_old_samples store p nowOld = Except.ok old)
    (hout : detect_changes df p store nowC nowOld = Except.ok out) :
    (cur.scheduled.length > old.scheduled.length →
      out.1.new_scheduled =
        some (cur.scheduled.filter (fun x => decide (x ∉ old.scheduled)))) ∧
    (¬ cur.scheduled.length > old.scheduled.length → out.1.new_scheduled = none) := by
  rw [detect_changes_eq df p store nowC nowOld cur old hcur hold] at hout
  injection hout with h
  rw [← h]
  constructor
  · intro hgt
    simp only [if_pos hgt]
  · intro hle
    simp only [if_neg hle]

/-- Witness for C2 on the detection-gap scenario: current `[dMar]` versus
stored `[dJan]` (same length, one date swapped) yields the false
sentinel. -/
theorem detect_changes_new_scheduled_gate_witness :
    find_current_samples df2 1 now0 = Except.ok ⟨0, [dMar]⟩ ∧
    get_old_samples store2 1 now0 = Except.ok ⟨0, [dJan]⟩ ∧
    (Delta.mk none none).new_scheduled = none :=
  ⟨rfl, rfl,
    (detect_changes_new_scheduled_gate df2 1 store2 now0 now0 ⟨0, [dMar]⟩ ⟨0, [dJan]⟩
      (⟨none, none⟩, write_samples store2 1 ⟨0, [sMar]⟩) rfl rfl rfl).2 (by decide)⟩

/-- C3 counterexample: with two current rows carrying the same imaging
date and that date already stored once, `detect_changes` returns
`new_scheduled = []` — an empty list, not the false sentinel and not a
non-empty list — so the claimed Delta invariant fails. -/
theorem delta_empty_new_scheduled_cex :
    detect_changes df3 1 store3 now0 now0 =
      Except.ok (⟨none, some []⟩, write_samples store3 1 ⟨0, [sJan, sJan]⟩) ∧
    ¬ DeltaInvariant ⟨none, some []⟩ := by
  refine ⟨rfl, fun h => ?_⟩
  rcases h.2 with h2 | ⟨l, hl, hne⟩
  · exact Option.noConfusion h2
  · exact hne (Option.some.injEq _ _ ▸ hl).symm

/-- C3 amended: `new_ready` is the false sentinel or strictly positive;
`new_scheduled` is the false sentinel or a list of dates, and that list is
non-empty whenever the current snapshot's scheduled dates contain no
duplicates (with duplicated current dates an empty list can escape). -/
theorem delta_invariant_amended (df : Table) (p : Int) (store : Store)
    (nowC nowOld : DateTime) (cur : Snapshot) (out : Delta × Store)
    (hcur : find_current_samples df p nowC = Except.ok cur)
    (hout : detect_changes df p store nowC nowOld = Except.ok out) :
    (∀ k, out.1.new_ready = some k → 0 < k) ∧
    (cur.scheduled.Nodup → ∀ l, out.1.new_scheduled = some l → l ≠ []) := by
  cases hold : get_old_samples store p nowOld with
  | error e =>
    unfold detect_changes at hout
    rw [hcur, hold] at hout
    exact Except.noConfusion hout
  | ok old =>
    rw [detect_changes_eq df p store nowC nowOld cur old hcur hold] at hout
    injection hout with h
    rw [← h]
    constructor
    · intro k hk
      by_cases hlt : cur.ready > old.ready
      · rw [if_pos hlt] at hk
        injection hk with hk
        rw [← hk]
        omega
      · rw [if_neg hlt] at hk
        exact Option.noConfusion hk
    · intro hnd l hl hleq
      subst hleq
      by_cases hgt : cur.scheduled.length > old.scheduled.length
      · rw [if_pos hgt] at hl
        injection hl with hl
        have hsub : cur.scheduled ⊆ old.scheduled := by
          intro x hx
          by_contra hnx
          have : x ∈ cur.scheduled.filter (fun x => decide (x ∉ old.scheduled)) :=
            List.mem_filter.mpr ⟨hx, by simpa using hnx⟩
          rw [hl] at this
          exact List.not_mem_nil x this
        have := nodup_subset_length_le hnd hsub
        omega
      · rw [if_neg hgt] at hl
        exact Option.noConfusion hl

/-- Witness for the amended C3 on the spec's scenario: delta
`{new_ready: 1, new_scheduled: [dFeb]}` with duplicate-free current
dates. -/
theorem delta_invariant_amended_witness :
    (0 : Int) < 1 ∧ ([dFeb] : List DateTime) ≠ [] :=
  have h := delta_invariant_amended df1 1 store1 now0 now0 ⟨3, [dJan, dFeb]⟩
    (⟨some 1, some [dFeb]⟩, write_samples store1 1 ⟨3, [sJan, sFeb]⟩) rfl rfl
  ⟨h.1 1 rfl, h.2 (by decide) [dFeb] rfl⟩

/-- C4 counterexample: when the fetch raises `HTTPError`, `get_table` does
not return any table at all (empty or otherwise), so the failure cannot
surface "only later" in downstream extraction. -/
theorem get_table_fetch_failure_cex : ¬ ∃ df, get_table none = Except.ok df := by
  rintro ⟨df, h⟩
  exact Except.noConfusion h

/-- C4 amended: on a fetch failure `get_table` logs the error and then
immediately raises `UnboundLocalError` itself when it touches the
never-assigned table variable; the hard stop happens inside `get_table`,
not downstream. -/
theorem get_table_fetch_failure_raises :
    get_table none = Except.error PyError.nameError := rfl

/-- C5 counterexample: at a `now` exactly equal to a scheduled date
(midnight boundary) the code's strict filter drops the date on both the
fresh side and the stored side, while the spec's keep-dates-`>= now`
policy keeps it. -/
theorem date_filter_boundary_cex :
    find_current_samples df5 1 nowEq = Except.ok ⟨0, []⟩ ∧
    get_old_samples store2 1 nowEq = Except.ok ⟨0, []⟩ ∧
    spec_keep_dates_ge_now nowEq [dJan] = [dJan] :=
  ⟨rfl, rfl, rfl⟩

/-- C5 amended: both `find_current_samples` and `get_old_samples` retain
exactly the parsed dates that are *strictly greater* than the `now` read
at their own filter, the same strict policy on both sides (not `>= now`
as the spec asks). -/
theorem date_filter_strict_consistent (table : Table) (p : Int) (now₁ : DateTime)
    (cur : Snapshot) (parsedC : List DateTime)
    (store : Store) (q : Int) (now₂ : DateTime) (dataq : StoredSnapshot)
    (parsedO : List DateTime) (old : Snapshot)
    (hcur : find_current_samples table p now₁ = Except.ok cur)
    (hpc : parseAll (((table.filter (fun r => r.projectID == p)).filter
        (fun r => r.imagingDate.isSome)).map (fun r => r.imagingDate.getD [])) =
      Except.ok parsedC)
    (hq : store q = some dataq)
    (hpo : parseAll dataq.scheduled = Except.ok parsedO)
    (hold : get_old_samples store q now₂ = Except.ok old) :
    (∀ x, x ∈ cur.scheduled ↔ x ∈ parsedC ∧ DateTime.ltb now₁ x = true) ∧
    (∀ x, x ∈ old.scheduled ↔ x ∈ parsedO ∧ DateTime.ltb now₂ x = true) := by
  constructor
  · simp only [find_current_samples] at hcur
    by_cases he : (table.filter (fun r => r.projectID == p)).isEmpty
    · rw [if_pos he] at hcur
      injection hcur with hcur
      rw [List.isEmpty_iff] at he
      rw [he] at hpc
      simp only [List.filter_nil, List.map_nil, parseAll] at hpc
      injection hpc with hpc
      rw [← hcur, ← hpc]
      intro x
      simp
    · rw [if_neg he, hpc] at hcur
      injection hcur with hcur
      rw [← hcur]
      intro x
      simp [List.mem_filter]
  · simp only [get_old_samples] at hold
    rw [hq] at hold
    simp only at hold
    rw [hpo] at hold
    simp only at hold
    injection hold with hold
    rw [← hold]
    intro x
    simp [List.mem_filter]

/-- Witness for the amended C5: a current date (March 2030) and a stored
date (February 2030) are each retained precisely because they are
strictly after the mid-2025 `now`. -/
theorem date_filter_strict_consistent_witness :
    (dMar ∈ (Snapshot.mk 0 [dMar]).scheduled ↔
      dMar ∈ [dMar] ∧ DateTime.ltb now0 dMar = true) ∧
    (dFeb ∈ (Snapshot.mk 0 [dFeb]).scheduled ↔
      dFeb ∈ [dFeb] ∧ DateTime.ltb now0 dFeb = true) :=
  have h := date_filter_strict_consistent df2 1 now0 ⟨0, [dMar]⟩ [dMar]
    store5 1 now0 ⟨0, [sFeb]⟩ [dFeb] ⟨0, [dFeb]⟩ rfl rfl rfl rfl rfl
  ⟨h.1 dMar, h.2 dFeb⟩

/-- C6: writing a snapshot (dates formatted back to `MM/DD/YYYY` strings)
and reading it back reproduces the same `ready` value and the same dates,
hence the same formatted strings; the read-side time filter is neutralised
by taking all dates after `now`. -/
theorem write_read_roundtrip (store : Store) (p : Int) (now : DateTime) (ready : Int)
    (dates : List DateTime) (hv : ∀ d ∈ dates, ValidDate d)
    (hf : ∀ d ∈ dates, DateTime.ltb now d = true) :
    get_old_samples (write_samples store p ⟨ready, dates.map strftime⟩) p now =
      Except.ok ⟨ready, dates⟩ := by
  have hw : write_samples store p ⟨ready, dates.map strftime⟩ p =
      some ⟨ready, dates.map strftime⟩ := by
    simp [write_samples]
  unfold get_old_samples
  rw [hw]
  simp only
  rw [parseAll_map_strftime hv]
  simp only
  rw [List.filter_eq_self.mpr hf]

/-- Witness for C6: store `{ready: 2, scheduled: ["01/01/2030"]}` for
project 1, read it back in mid-2025, and recover the same snapshot. -/
theorem write_read_roundtrip_witness :
    get_old_samples (write_samples storeNone 1 ⟨2, List.map strftime [dJan]⟩) 1 now0 =
      Except.ok ⟨2, [dJan]⟩ :=
  write_read_roundtrip storeNone 1 now0 2 [dJan] (by decide) (by decide)

/-- C7: `detect_changes` always persists the current snapshot, with its
dates formatted back to strings, under the project's own key — whether or
not any delta was found — and leaves every other project's stored snapshot
untouched. -/
theorem detect_changes_persists_frame (df : Table) (p : Int) (store : Store)
    (nowC nowOld : DateTime) (cur : Snapshot) (out : Delta × Store)
    (hcur : find_current_samples df p nowC = Except.ok cur)
    (hout : detect_changes df p store nowC nowOld = Except.ok out) :
    out.2 p = some ⟨cur.ready, cur.scheduled.map strftime⟩ ∧
    ∀ q, q ≠ p → out.2 q = store q := by
  cases hold : get_old_samples store p nowOld with
  | error e =>
    unfold detect_changes at hout
    rw [hcur, hold] at hout
    exact Except.noConfusion hout
  | ok old =>
    rw [detect_changes_eq df p store nowC nowOld cur old hcur hold] at hout
    injection hout with h
    rw [← h]
    constructor
    · simp [write_samples]
    · intro q hq
      simp [write_samples, hq]

/-- Witness for C7: after a run for project 1, project 1's file holds the
formatted current snapshot and project 2's entry is unchanged. -/
theorem detect_changes_persists_frame_witness :
    (write_samples store1 1 ⟨3, [sJan, sFeb]⟩ : Store) 1 =
      some ⟨(Snapshot.mk 3 [dJan, dFeb]).ready,
        (Snapshot.mk 3 [dJan, dFeb]).scheduled.map strftime⟩ ∧
    (write_samples store1 1 ⟨3, [sJan, sFeb]⟩ : Store) 2 = store1 2 :=
  have h := detect_changes_persists_frame df1 1 store1 now0 now0 ⟨3, [dJan, dFeb]⟩
    (⟨some 1, some [dFeb]⟩, write_samples store1 1 ⟨3, [sJan, sFeb]⟩) rfl rfl
  ⟨h.1, h.2 2 (by decide)⟩

/-- C8: when no table row matches the project ID, the extractor returns
the default snapshot `{ready: 0, scheduled: []}` and raises no
exception. -/
theorem find_current_samples_no_rows_default (table : Table) (p : Int) (now : DateTime)
    (h : (table.filter (fun r => r.projectID == p)).isEmpty = true) :
    find_current_samples table p now = Except.ok ⟨0, []⟩ := by
  simp only [find_current_samples, h, if_true]

/-- Witness for C8: project 99 has no rows in `df1`. -/
theorem find_current_samples_no_rows_default_witness :
    (df1.filter (fun r => r.projectID == (99 : Int))).isEmpty = true ∧
    find_current_samples df1 99 now0 = Except.ok ⟨0, []⟩ :=
  ⟨rfl, find_current_samples_no_rows_default df1 99 now0 rfl⟩

/-- C9: a missing snapshot file is treated as a first run: the old
snapshot defaults to `{ready: 0, scheduled: []}`, `detect_changes`
succeeds, and any current `ready > 0` is reported in full as
`new_ready = current.ready`. -/
theorem missing_file_first_run_new_ready (df : Table) (p : Int) (store : Store)
    (nowC nowOld : DateTime) (cur : Snapshot)
    (hfile : store p = none)
    (hcur : find_current_samples df p nowC = Except.ok cur)
    (hpos : 0 < cur.ready) :
    (∃ out, detect_changes df p store nowC nowOld = Except.ok out) ∧
    (∀ out, detect_changes df p store nowC nowOld = Except.ok out →
      out.1.new_ready = some cur.ready) := by
  have hold : get_old_samples store p nowOld = Except.ok ⟨0, []⟩ := by
    unfold get_old_samples
    rw [hfile]
  constructor
  · exact ⟨_, detect_changes_eq df p store nowC nowOld cur ⟨0, []⟩ hcur hold⟩
  · intro out hout
    rw [detect_changes_eq df p store nowC nowOld cur ⟨0, []⟩ hcur hold] at hout
    injection hout with h
    rw [← h]
    show (if cur.ready > (0 : Int) then some (cur.ready - 0) else none) = some cur.ready
    rw [if_pos hpos]
    norm_num

/-- Witness for C9: with no file for project 1 and three ready samples,
`new_ready` is 3. -/
theorem missing_file_first_run_new_ready_witness :
    (Delta.mk (some 3) (some [dJan, dFeb])).new_ready =
      some (Snapshot.mk 3 [dJan, dFeb]).ready :=
  (missing_file_first_run_new_ready df1 1 storeNone now0 now0 ⟨3, [dJan, dFeb]⟩
      rfl rfl (by decide)).2
    (⟨some 3, some [dJan, dFeb]⟩, write_samples storeNone 1 ⟨3, [sJan, sFeb]⟩) rfl

/-- C10: for every verbosity count the index `min(len(levels)-1, verbose)`
is in bounds of the three-element level list, and any count of two or more
selects DEBUG. -/
theorem verbosity_index_safe (v : Nat) :
    levelIndex v < levels.length ∧ (2 ≤ v → levels.getD (levelIndex v) 0 = DEBUG) := by
  have hv : levelIndex v = min 2 v := rfl
  constructor
  · rw [hv]
    show min 2 v < 3
    omega
  · intro h2
    have : levelIndex v = 2 := by
      rw [hv]
      omega
    rw [this]
    rfl

/-- Witness for C10 at verbosity 5 (`-vvvvv`): in bounds and DEBUG. -/
theorem verbosity_index_safe_witness :
    levelIndex 5 < levels.length ∧ levels.getD (levelIndex 5) 0 = DEBUG :=
  ⟨(verbosity_index_safe 5).1, (verbosity_index_safe 5).2 (by decide)⟩

end QueueScraper
